import Mathlib

/-!
Verification of the daily-consumption reconciliation engine and the grid
status/event tracker of the `uppcl_radius_monitor` repository.

The embedding models the single `power_data` table as a `List Row` and the
`daily_consumption` table as a `List DailyRecord`.  Timestamps are modelled
as integers (minutes since an arbitrary epoch), so UTC midnight of calendar
day `d` is `1440 * d`; calendar dates themselves are the integers `d`.
SQLite's `julianday` difference orders timestamps exactly as the integer
difference does, and ISO-8601 string comparison of timestamps agrees with
numeric order, so all `ORDER BY` clauses are modelled on the integers.
Numeric SQLite `REAL` values (meter readings, confidences) are modelled as
rationals; nullable columns are `Option`s.
-/

/-- A row of the `power_data` table (the columns the engine reads). -/
structure Row where
  timestamp : Int
  category : String
  source : String
  status : Option String
  value : Option ℚ
  confidence : Option ℚ
deriving DecidableEq

/-- UTC midnight of calendar day `d`, in minutes (`getMidnightTimestamp`). -/
def midnight (d : Int) : Int := 1440 * d

/-- Model of `SELECT ... ORDER BY f ASC LIMIT 1` over a list of rows: a row of the
list minimising `f` (the first such row in list order), `none` iff the list
is empty. -/
def selectBest (f : Row → Int) : List Row → Option Row
  | [] => none
  | r :: rs =>
    match selectBest f rs with
    | none => some r
    | some b => if f r ≤ f b then some r else some b

theorem selectBest_eq_none_iff (f : Row → Int) (l : List Row) :
    selectBest f l = none ↔ l = [] := by
  cases l with
  | nil => simp [selectBest]
  | cons r rs =>
    simp only [selectBest]
    split
    · simp
    · split <;> simp

theorem selectBest_mem (f : Row → Int) :
    ∀ (l : List Row) (b : Row), selectBest f l = some b → b ∈ l := by
  intro l
  induction l with
  | nil => intro b h; simp [selectBest] at h
  | cons r rs ih =>
    intro b h
    simp only [selectBest] at h
    split at h
    · rw [Option.some_inj] at h
      exact h ▸ List.mem_cons_self r rs
    · next b' heq =>
      split at h <;> rw [Option.some_inj] at h
      · exact h ▸ List.mem_cons_self r rs
      · exact h ▸ List.mem_cons_of_mem _ (ih _ heq)

theorem selectBest_le (f : Row → Int) :
    ∀ (l : List Row) (b : Row), selectBest f l = some b →
      ∀ x ∈ l, f b ≤ f x := by
  intro l
  induction l with
  | nil => intro b h; simp [selectBest] at h
  | cons r rs ih =>
    intro b h
    simp only [selectBest] at h
    intro x hx
    split at h
    · next heq =>
      rw [Option.some_inj] at h
      subst h
      rcases List.mem_cons.mp hx with hx | hx
      · subst hx; exact le_refl _
      · rw [selectBest_eq_none_iff] at heq
        exact absurd heq (List.ne_nil_of_mem hx)
    · next b' heq =>
      rcases List.mem_cons.mp hx with hx | hx
      · subst hx
        split at h <;> rw [Option.some_inj] at h <;> subst h
        · exact le_refl _
        · omega
      · have hb' := ih _ heq x hx
        split at h <;> rw [Option.some_inj] at h <;> subst h
        · omega
        · exact hb'

/-- The SQL filter of `getLatestMeterReading` and `getMidnightMeterReading`:
`category = 'meter_reading' AND source = 'grid' AND consumption_value IS NOT
NULL`. -/
def isGridMeter (r : Row) : Bool :=
  r.category == "meter_reading" && r.source == "grid" && r.value.isSome

/-- Window clause `timestamp >= midnight(d) AND timestamp < midnight(d+1)`. -/
def inWindow (d : Int) (r : Row) : Bool :=
  decide (midnight d ≤ r.timestamp) && decide (r.timestamp < midnight (d + 1))

/-- Function `getLatestMeterReading`: the most recent non-null grid meter reading in
the whole table (`ORDER BY timestamp DESC LIMIT 1`, no date bound). -/
def getLatestMeterReading (store : List Row) : Option Row :=
  selectBest (fun r => -r.timestamp) (store.filter isGridMeter)

/-- Function `getMidnightMeterReading(d)`: among the non-null grid meter readings
with timestamp in `[midnight(d), midnight(d+1))`, the one whose absolute
distance to exact midnight is smallest
(`ORDER BY ABS(julianday(timestamp) - julianday(midnight)) ASC LIMIT 1`). -/
def getMidnightMeterReading (d : Int) (store : List Row) : Option Row :=
  selectBest (fun r => |r.timestamp - midnight d|)
    (store.filter (fun r => isGridMeter r && inWindow d r))

/-- The coverage count of `checkMonitoringCoverage(d)`: rows with
`category = 'meter_reading' AND source = 'grid'` in the day's window.  Note
this SQL has no `consumption_value IS NOT NULL` clause. -/
def coverageCount (d : Int) (store : List Row) : Nat :=
  (store.filter (fun r =>
    r.category == "meter_reading" && r.source == "grid" && inWindow d r)).length

/-- Flag `coverage.hasGaps`: fewer than 12 meter readings in the 24h window. -/
def hasGaps (d : Int) (store : List Row) : Bool :=
  coverageCount d store < 12

/-- JS `c || 0.8` applied to a nullable confidence column: `null` and the
falsy number `0` both fall back to the default `0.8`. -/
def orDefault (c : Option ℚ) : ℚ :=
  match c with
  | none => 0.8
  | some x => if x = 0 then 0.8 else x

/-- A row of the `daily_consumption` table, as assembled by
`calculateDailyConsumption`. -/
structure DailyRecord where
  date : Int
  midnightReading : ℚ
  midnightTimestamp : Int
  currentReading : ℚ
  currentTimestamp : Int
  calculatedConsumption : ℚ
  isComplete : Bool
  hasMonitoringGaps : Bool
  confidenceScore : ℚ
deriving DecidableEq

/-- Function `calculateDailyConsumption(dateStr)` (pure value part): anchor from
`getMidnightMeterReading`, current from `getLatestMeterReading` (always the
global latest, for past dates too), fail on negative consumption,
confidence `min(midnight.confidence || 0.8, current.confidence || 0.8)`
times `0.7` when the day has gaps; `isComplete` iff the date is strictly
before today. -/
def calculateDailyConsumption (d today : Int) (store : List Row) :
    Option DailyRecord :=
  match getMidnightMeterReading d store with
  | none => none
  | some m =>
    match getLatestMeterReading store with
    | none => none
    | some c =>
      if c.value.getD 0 - m.value.getD 0 < 0 then none
      else some
        { date := d
          midnightReading := m.value.getD 0
          midnightTimestamp := m.timestamp
          currentReading := c.value.getD 0
          currentTimestamp := c.timestamp
          calculatedConsumption := c.value.getD 0 - m.value.getD 0
          isComplete := decide (d < today)
          hasMonitoringGaps := hasGaps d store
          confidenceScore :=
            min (orDefault m.confidence) (orDefault c.confidence) *
              (if hasGaps d store then 0.7 else 1) }

/-- Function `saveDailyConsumption`: `INSERT OR REPLACE` into `daily_consumption`
keyed by the unique `date` column. -/
def saveDailyConsumption (rec : DailyRecord) (ledger : List DailyRecord) :
    List DailyRecord :=
  rec :: ledger.filter (fun x => x.date != rec.date)

/-- Combination of `calculateDailyConsumption` with its persistence effect: on
success the record is upserted, on any `null` return the ledger is
untouched. -/
def calculateDailyConsumptionRun (d today : Int) (store : List Row)
    (ledger : List DailyRecord) : Option DailyRecord × List DailyRecord :=
  match calculateDailyConsumption d today store with
  | none => (none, ledger)
  | some rec => (some rec, saveDailyConsumption rec ledger)

/-- The dates visited by `backfillDailyConsumptions(days)`: the loop
`for (i = days - 1; i >= 0; i--)` computes `today - i`, so the dates run
oldest-first from `today - (days - 1)` up to `today`. -/
def backfillDates (days : Nat) (today : Int) : List Int :=
  (List.range days).reverse.map (fun i => today - (i : Int))

/-- The body of `backfillDailyConsumptions`: one `calculateDailyConsumption`
call per date, threading the ledger; only non-null results are collected,
and a null result on one date leaves the remaining dates to be computed. -/
def backfillAux (today : Int) (store : List Row) :
    List Int → List DailyRecord → List DailyRecord × List DailyRecord
  | [], ledger => ([], ledger)
  | d :: ds, ledger =>
    let step := calculateDailyConsumptionRun d today store ledger
    let rest := backfillAux today store ds step.2
    (match step.1 with
     | some rec => rec :: rest.1
     | none => rest.1, rest.2)

/-- Function `backfillDailyConsumptions(days)`: recompute the last `days` calendar
days, oldest first, returning the successful results in visit order. -/
def backfillDailyConsumptions (days : Nat) (today : Int) (store : List Row)
    (ledger : List DailyRecord) : List DailyRecord × List DailyRecord :=
  backfillAux today store (backfillDates days today) ledger

/-- Query `SELECT status, timestamp FROM power_data WHERE category='availability'
AND source='grid' ORDER BY timestamp DESC LIMIT 1` — the last known grid
availability reading. -/
def lastAvailability (store : List Row) : Option Row :=
  selectBest (fun r => -r.timestamp)
    (store.filter (fun r => r.category == "availability" && r.source == "grid"))

/-- The synthetic event row inserted by `trackGridStatusChange`: category
`event`, source `grid`, the event type in the status column, confidence 1
(the previous/current statuses go into the JSON metadata column, which is
not modelled). -/
def eventRow (eventType : String) (cur : Row) : Row :=
  { timestamp := cur.timestamp
    category := "event"
    source := "grid"
    status := some eventType
    value := none
    confidence := some 1 }

/-- Function `trackGridStatusChange(currentData)`: compare against the most recent
prior grid availability reading; no prior or unchanged status is a no-op,
and only the transitions online→offline (interruption) and offline→online
(restoration) produce an event row — every other delta is dropped. -/
def trackGridStatusChange (cur : Row) (store : List Row) : Option Row :=
  match lastAvailability store with
  | none => none
  | some prev =>
    if prev.status = cur.status then none
    else if prev.status = some "online" ∧ cur.status = some "offline" then
      some (eventRow "interruption" cur)
    else if prev.status = some "offline" ∧ cur.status = some "online" then
      some (eventRow "restoration" cur)
    else none

/-- Function `generateFingerprint`: the dedup key `category_source_(status||value)_`
minute-truncated timestamp.  Timestamps are already minutes here, so the
truncation is the identity; the event fingerprint
`event_grid_eventType_minute` coincides with the generic one on event
rows. -/
def fingerprintOf (r : Row) : String × String × String × Int :=
  (r.category, r.source,
   match r.status with
   | some s => s
   | none => toString (r.value.getD 0),
   r.timestamp)

/-- An `INSERT` into `power_data` whose `UNIQUE` fingerprint constraint
turns a duplicate into a no-op. -/
def insertRow (store : List Row) (r : Row) : List Row :=
  if store.any (fun x => decide (fingerprintOf x = fingerprintOf r)) then store
  else store ++ [r]

/-- One iteration of `saveData`'s loop for one extracted data item: for a
grid availability reading, first run `trackGridStatusChange` (which inserts
its event row, if any), then insert the reading itself. -/
def processReading (store : List Row) (cur : Row) : List Row :=
  let store1 :=
    if cur.category == "availability" && cur.source == "grid" then
      match trackGridStatusChange cur store with
      | some ev => insertRow store ev
      | none => store
    else store
  insertRow store1 cur

/-- Loop of `saveData` over a whole batch of extracted readings, in order. -/
def processAll (store : List Row) (rows : List Row) : List Row :=
  rows.foldl processReading store

/-- The event rows of the store (`category = 'event'`). -/
def eventsOf (store : List Row) : List Row :=
  store.filter (fun r => r.category == "event")

/-- The storage interface used inside `calculateDailyConsumption`'s `try`
block; each operation is a promise that may reject with an error message. -/
structure FallibleDB where
  getMidnight : Int → Except String (Option Row)
  getLatest : Except String (Option Row)
  getGaps : Int → Except String Bool
  save : DailyRecord → Except String Unit

/-- The `try` block of `calculateDailyConsumption` over a fallible store:
any rejected promise escapes as `Except.error`. -/
def calcBody (db : FallibleDB) (d today : Int) :
    Except String (Option DailyRecord) :=
  match db.getMidnight d with
  | Except.error e => Except.error e
  | Except.ok none => Except.ok none
  | Except.ok (some m) =>
    match db.getLatest with
    | Except.error e => Except.error e
    | Except.ok none => Except.ok none
    | Except.ok (some c) =>
      match db.getGaps d with
      | Except.error e => Except.error e
      | Except.ok gaps =>
        if c.value.getD 0 - m.value.getD 0 < 0 then Except.ok none
        else
          let rec0 : DailyRecord :=
            { date := d
              midnightReading := m.value.getD 0
              midnightTimestamp := m.timestamp
              currentReading := c.value.getD 0
              currentTimestamp := c.timestamp
              calculatedConsumption := c.value.getD 0 - m.value.getD 0
              isComplete := decide (d < today)
              hasMonitoringGaps := gaps
              confidenceScore :=
                min (orDefault m.confidence) (orDefault c.confidence) *
                  (if gaps then 0.7 else 1) }
          match db.save rec0 with
          | Except.error e => Except.error e
          | Except.ok _ => Except.ok (some rec0)

/-- Function `calculateDailyConsumption` with its `catch` handler: any error raised
inside the `try` block is logged and turned into a `null` return. -/
def calcCatch (db : FallibleDB) (d today : Int) : Option DailyRecord :=
  match calcBody db d today with
  | Except.error _ => none
  | Except.ok v => v

/-- The fallible interface backed by an in-memory store that never fails. -/
def dbOfStore (store : List Row) : FallibleDB :=
  { getMidnight := fun d => Except.ok (getMidnightMeterReading d store)
    getLatest := Except.ok (getLatestMeterReading store)
    getGaps := fun d => Except.ok (hasGaps d store)
    save := fun _ => Except.ok () }

/-- A store whose every operation rejects, as SQLite does on disk I/O
failure. -/
def failDB : FallibleDB :=
  { getMidnight := fun _ => Except.error "SQLITE_IOERR"
    getLatest := Except.error "SQLITE_IOERR"
    getGaps := fun _ => Except.error "SQLITE_IOERR"
    save := fun _ => Except.error "SQLITE_IOERR" }

/-- The result shape returned by `getTodayConsumption` and
`getConsumptionAtTime`. -/
structure ConsumptionView where
  value : ℚ
  timestamp : Int
  confidence : ℚ
  isRealTimeCalculated : Bool
  midnightReading : ℚ
  currentReading : ℚ
  hasGapsFlag : Bool
deriving DecidableEq

/-- Function `getTodayConsumption()`: a thin wrapper re-running
`calculateDailyConsumption(today)` (the value part; the upsert side effect
does not influence the returned view). -/
def getTodayConsumption (today : Int) (store : List Row) :
    Option ConsumptionView :=
  match calculateDailyConsumption today today store with
  | none => none
  | some rec => some
    { value := rec.calculatedConsumption
      timestamp := rec.currentTimestamp
      confidence := rec.confidenceScore
      isRealTimeCalculated := true
      midnightReading := rec.midnightReading
      currentReading := rec.currentReading
      hasGapsFlag := rec.hasMonitoringGaps }

/-- The methods defined on the `DailyConsumptionCalculator` class, as they
appear in the source. -/
def classMethods : List String :=
  ["initDatabase", "getTodayDate", "getMidnightTimestamp",
   "getLatestMeterReading", "getMidnightMeterReading",
   "checkMonitoringCoverage", "calculateDailyConsumption",
   "saveDailyConsumption", "getDailyConsumptions",
   "backfillDailyConsumptions", "getTodayConsumption",
   "getConsumptionAtTime", "close"]

/-- The call `this.getMidnightReading(dateStr)` made by
`getConsumptionAtTime`: in JS, reading an absent method yields `undefined`
and invoking it throws a `TypeError`.  The then-branch (what the call would
return if such a method existed) is unreachable, since `getMidnightReading`
is not among `classMethods`. -/
def callGetMidnightReading (d : Int) (store : List Row) :
    Except String (Option Row) :=
  if classMethods.contains "getMidnightReading" then
    Except.ok (getMidnightMeterReading d store)
  else
    Except.error "TypeError: this.getMidnightReading is not a function"

/-- The past-date branch of `getConsumptionAtTime`, inside its `try`: call
the (absent) `getMidnightReading`, then look up the latest meter reading
with `timestamp <= targetTime` globally, subtract, and reject negative
consumption. -/
def getConsumptionAtTimePast (d targetTime : Int) (store : List Row) :
    Except String (Option ConsumptionView) :=
  match callGetMidnightReading d store with
  | Except.error e => Except.error e
  | Except.ok none => Except.ok none
  | Except.ok (some m) =>
    match selectBest (fun r => -r.timestamp)
        (store.filter (fun r => isGridMeter r && decide (r.timestamp ≤ targetTime))) with
    | none => Except.ok none
    | some t =>
      if t.value.getD 0 - m.value.getD 0 < 0 then Except.ok none
      else Except.ok (some
        { value := t.value.getD 0 - m.value.getD 0
          timestamp := t.timestamp
          confidence := 0.9
          isRealTimeCalculated := false
          midnightReading := m.value.getD 0
          currentReading := t.value.getD 0
          hasGapsFlag := false })

/-- Function `getConsumptionAtTime(dateStr, targetTime)`: for today, delegate to
`getTodayConsumption`; for any other date run the past-date branch, whose
errors the surrounding `catch` converts into a `null` return. -/
def getConsumptionAtTime (d today targetTime : Int) (store : List Row) :
    Option ConsumptionView :=
  if d = today then getTodayConsumption today store
  else
    match getConsumptionAtTimePast d targetTime store with
    | Except.error _ => none
    | Except.ok v => v

/-- The row predicate of the midnight-anchor query, propositionally: a
non-null grid meter reading inside the day's window. -/
def IsMidCandidate (d : Int) (r : Row) : Prop :=
  r.category = "meter_reading" ∧ r.source = "grid" ∧ r.value.isSome = true ∧
  midnight d ≤ r.timestamp ∧ r.timestamp < midnight (d + 1)

instance (d : Int) (r : Row) : Decidable (IsMidCandidate d r) := by
  unfold IsMidCandidate; infer_instance

theorem midCandidate_iff (d : Int) (r : Row) :
    (isGridMeter r && inWindow d r) = true ↔ IsMidCandidate d r := by
  simp [isGridMeter, inWindow, IsMidCandidate, and_assoc]

/-- Inversion for a successful `calculateDailyConsumption`: it exposes the
anchor, the current reading and the exact record that was assembled. -/
theorem calculateDailyConsumption_inversion (d today : Int) (store : List Row)
    (rec : DailyRecord) (h : calculateDailyConsumption d today store = some rec) :
    ∃ m c, getMidnightMeterReading d store = some m ∧
      getLatestMeterReading store = some c ∧
      ¬ c.value.getD 0 - m.value.getD 0 < 0 ∧
      rec = { date := d
              midnightReading := m.value.getD 0
              midnightTimestamp := m.timestamp
              currentReading := c.value.getD 0
              currentTimestamp := c.timestamp
              calculatedConsumption := c.value.getD 0 - m.value.getD 0
              isComplete := decide (d < today)
              hasMonitoringGaps := hasGaps d store
              confidenceScore :=
                min (orDefault m.confidence) (orDefault c.confidence) *
                  (if hasGaps d store then 0.7 else 1) } := by
  unfold calculateDailyConsumption at h
  split at h
  · exact absurd h (by simp)
  · next m hm =>
    split at h
    · exact absurd h (by simp)
    · next c hc =>
      split at h
      · exact absurd h (by simp)
      · next hneg =>
        exact ⟨m, c, hm, hc, hneg, (Option.some_inj.mp h).symm⟩

/-- The returned component of one `calculateDailyConsumptionRun` step does
not depend on the ledger it threads. -/
theorem calculateDailyConsumptionRun_fst (d today : Int) (store : List Row)
    (ledger : List DailyRecord) :
    (calculateDailyConsumptionRun d today store ledger).1 =
      calculateDailyConsumption d today store := by
  unfold calculateDailyConsumptionRun
  cases h : calculateDailyConsumption d today store <;> simp

theorem backfillDates_succ (n : Nat) (today : Int) :
    backfillDates (n + 1) today = (today - n) :: backfillDates n today := by
  simp [backfillDates, List.range_succ]

theorem backfillDates_length (days : Nat) (today : Int) :
    (backfillDates days today).length = days := by
  induction days with
  | zero => simp [backfillDates]
  | succ n ih => rw [backfillDates_succ, List.length_cons, ih]

theorem backfillAux_fst (today : Int) (store : List Row) :
    ∀ (ds : List Int) (ledger : List DailyRecord),
      (backfillAux today store ds ledger).1 =
        ds.filterMap (fun d => calculateDailyConsumption d today store) := by
  intro ds
  induction ds with
  | nil => intro ledger; simp [backfillAux]
  | cons d ds ih =>
    intro ledger
    simp only [backfillAux, List.filterMap_cons]
    rw [calculateDailyConsumptionRun_fst]
    cases h : calculateDailyConsumption d today store <;> simp [ih]

/- Concrete fixtures used for counterexamples and witnesses. -/

/-- A grid meter reading row. -/
def meterRow (t : Int) (v conf : ℚ) : Row :=
  ⟨t, "meter_reading", "grid", none, some v, some conf⟩

/-- A grid availability reading row. -/
def availRow (t : Int) (st : String) : Row :=
  ⟨t, "availability", "grid", some st, none, some 1⟩

/-- Day 0 has readings at minutes 10 and 1000; one later reading falls on
day 1 (minute 1470). -/
def storeA : List Row :=
  [meterRow 10 100 1, meterRow 1000 104 1, meterRow 1470 110 1]

/-- What `calculateDailyConsumption 0` computes over `storeA` when today is
day 1. -/
def recA : DailyRecord := ⟨0, 100, 10, 110, 1470, 10, true, true, 0.7⟩

/-- What `calculateDailyConsumption 1` computes over `storeA` when today is
day 1. -/
def recB : DailyRecord := ⟨1, 110, 1470, 110, 1470, 0, false, true, 0.7⟩

/-- Scenario D: the current (latest) reading 95 sits below the midnight
anchor 100. -/
def storeD : List Row := [meterRow 5 100 1, meterRow 300 95 1]

/-- An anchor whose stored confidence is exactly 0. -/
def storeZeroConf : List Row := [meterRow 10 100 0, meterRow 100 105 1]

/-- What `calculateDailyConsumption 0` computes over `storeZeroConf` when
today is day 0. -/
def recZeroConf : DailyRecord := ⟨0, 100, 10, 105, 100, 5, false, true, 0.56⟩

/-- Readings whose stored confidences are 2, outside [0,1]. -/
def storeBigConf : List Row := [meterRow 10 100 2, meterRow 100 105 2]

/-- What `calculateDailyConsumption 0` computes over `storeBigConf` when
today is day 0. -/
def recBigConf : DailyRecord := ⟨0, 100, 10, 105, 100, 5, false, true, 1.4⟩

theorem evalA : calculateDailyConsumption 0 1 storeA = some recA := by
  norm_num [calculateDailyConsumption, getMidnightMeterReading, getLatestMeterReading,
    selectBest, isGridMeter, inWindow, midnight, hasGaps, coverageCount, orDefault,
    storeA, meterRow, recA, List.filter]

theorem evalA1 : calculateDailyConsumption 1 1 storeA = some recB := by
  norm_num [calculateDailyConsumption, getMidnightMeterReading, getLatestMeterReading,
    selectBest, isGridMeter, inWindow, midnight, hasGaps, coverageCount, orDefault,
    storeA, meterRow, recB, List.filter]

theorem midA : getMidnightMeterReading 0 storeA = some (meterRow 10 100 1) := by
  decide

theorem midD : getMidnightMeterReading 0 storeD = some (meterRow 5 100 1) := by
  decide

theorem latestD : getLatestMeterReading storeD = some (meterRow 300 95 1) := by
  decide

theorem midZero :
    getMidnightMeterReading 0 storeZeroConf = some (meterRow 10 100 0) := by
  decide

theorem latestZero :
    getLatestMeterReading storeZeroConf = some (meterRow 100 105 1) := by
  decide

theorem evalZero :
    calculateDailyConsumption 0 0 storeZeroConf = some recZeroConf := by
  norm_num [calculateDailyConsumption, getMidnightMeterReading, getLatestMeterReading,
    selectBest, isGridMeter, inWindow, midnight, hasGaps, coverageCount, orDefault,
    storeZeroConf, meterRow, recZeroConf, List.filter]

theorem evalBig :
    calculateDailyConsumption 0 0 storeBigConf = some recBigConf := by
  norm_num [calculateDailyConsumption, getMidnightMeterReading, getLatestMeterReading,
    selectBest, isGridMeter, inWindow, midnight, hasGaps, coverageCount, orDefault,
    storeBigConf, meterRow, recBigConf, List.filter]

theorem confA : ∀ r ∈ storeA, ∀ x : ℚ, r.confidence = some x → 0 ≤ x ∧ x ≤ 1 := by
  intro r hr x hx
  simp only [storeA, meterRow, List.mem_cons, List.not_mem_nil, or_false] at hr
  rcases hr with h | h | h <;> subst h <;> simp only [Option.some_inj] at hx <;>
    rw [← hx] <;> norm_num

/-- The bounds of the JS falsy-coalesced confidence: when every stored
confidence is in [0,1], so is `c || 0.8`. -/
theorem orDefault_bounds (c : Option ℚ)
    (h : ∀ x : ℚ, c = some x → 0 ≤ x ∧ x ≤ 1) :
    0 ≤ orDefault c ∧ orDefault c ≤ 1 := by
  cases c with
  | none => norm_num [orDefault]
  | some x =>
    have hx := h x rfl
    simp only [orDefault]
    split
    · norm_num
    · exact hx

theorem backfillDates_chain (days : Nat) (today : Int) :
    List.Chain' (fun a b : Int => a < b) (backfillDates days today) := by
  induction days with
  | zero => simp [backfillDates]
  | succ n ih =>
    rw [backfillDates_succ]
    cases n with
    | zero => simp [backfillDates]
    | succ m =>
      rw [backfillDates_succ]
      rw [backfillDates_succ] at ih
      exact List.chain'_cons.mpr ⟨by omega, ih⟩

theorem backfillDates_mem (days : Nat) (today : Int) :
    ∀ d ∈ backfillDates days today, today - days < d ∧ d ≤ today := by
  induction days with
  | zero => intro d hd; simp [backfillDates] at hd
  | succ n ih =>
    intro d hd
    rw [backfillDates_succ] at hd
    rcases List.mem_cons.mp hd with h | h
    · subst h; omega
    · have := ih d h; omega

/-- C1 (counterexample): with readings at minutes 10 and 1000 of day 0 and a
later reading at minute 1470 (day 1), computing day 0 while today is day 1
uses the day-1 reading (timestamp 1470, value 110) as `currentReading`, even
though it lies outside `[midnight 0, midnight 1)` and an in-window reading
(timestamp 1000, value 104) exists — so for a past date the current reading
is not the last reading before the next midnight. -/
theorem C1_counterexample :
    (0 : Int) < 1 ∧
    (calculateDailyConsumption 0 1 storeA).map
      (fun r => (r.currentTimestamp, r.currentReading)) = some (1470, (110 : ℚ)) ∧
    meterRow 1000 104 1 ∈ storeA ∧ IsMidCandidate 0 (meterRow 1000 104 1) ∧
    ¬ (midnight 0 ≤ 1470 ∧ (1470 : Int) < midnight 1) := by
  refine ⟨by norm_num, ?_, by simp [storeA], by decide, by decide⟩
  rw [evalA]
  rfl

/-- C1 (amended): for every date, past or current, the `currentReading` used
by `calculateDailyConsumption` is the most recent non-null grid meter
reading of the whole store at computation time — `getLatestMeterReading`
applies no date bound. -/
theorem C1_current_is_global_latest (d today : Int) (store : List Row)
    (rec : DailyRecord) (h : calculateDailyConsumption d today store = some rec) :
    ∃ c, getLatestMeterReading store = some c ∧
      rec.currentReading = c.value.getD 0 ∧
      rec.currentTimestamp = c.timestamp ∧
      ∀ r ∈ store, isGridMeter r = true → r.timestamp ≤ c.timestamp := by
  obtain ⟨m, c, hm, hc, hneg, hrec⟩ :=
    calculateDailyConsumption_inversion d today store rec h
  refine ⟨c, hc, by rw [hrec], by rw [hrec], ?_⟩
  intro r hr hgrid
  unfold getLatestMeterReading at hc
  have hler := selectBest_le (fun r => -r.timestamp) (store.filter isGridMeter)
    c hc r (List.mem_filter.mpr ⟨hr, hgrid⟩)
  simp only at hler
  omega

/-- C1 (witness): the amended statement evaluated over `storeA`. -/
theorem C1_witness :
    ∃ c, getLatestMeterReading storeA = some c ∧
      recA.currentReading = c.value.getD 0 ∧
      recA.currentTimestamp = c.timestamp ∧
      ∀ r ∈ storeA, isGridMeter r = true → r.timestamp ≤ c.timestamp :=
  C1_current_is_global_latest 0 1 storeA recA evalA

/-- C2: the midnight anchor, when found, is an in-window non-null grid
meter reading of the store whose absolute distance to exact midnight is
minimal among all such readings; and the lookup fails exactly when no
in-window candidate exists. -/
theorem C2_anchor_minimal (d : Int) (store : List Row) :
    (∀ r, getMidnightMeterReading d store = some r →
      r ∈ store ∧ IsMidCandidate d r ∧
      ∀ x ∈ store, IsMidCandidate d x →
        |r.timestamp - midnight d| ≤ |x.timestamp - midnight d|) ∧
    (getMidnightMeterReading d store = none ↔
      ∀ x ∈ store, ¬ IsMidCandidate d x) := by
  constructor
  · intro r hr
    unfold getMidnightMeterReading at hr
    have hmem := selectBest_mem _ _ r hr
    rw [List.mem_filter] at hmem
    refine ⟨hmem.1, (midCandidate_iff d r).mp hmem.2, ?_⟩
    intro x hx hcx
    have := selectBest_le (fun r => |r.timestamp - midnight d|) _ r hr x
      (List.mem_filter.mpr ⟨hx, (midCandidate_iff d x).mpr hcx⟩)
    simpa using this
  · unfold getMidnightMeterReading
    rw [selectBest_eq_none_iff]
    constructor
    · intro hnil x hx hcx
      have hmem : x ∈ store.filter (fun r => isGridMeter r && inWindow d r) :=
        List.mem_filter.mpr ⟨hx, (midCandidate_iff d x).mpr hcx⟩
      rw [hnil] at hmem
      simp at hmem
    · intro hall
      rw [List.eq_nil_iff_forall_not_mem]
      intro x hx
      rw [List.mem_filter] at hx
      exact hall x hx.1 ((midCandidate_iff d x).mp hx.2)

/-- C2 (witness): the anchor selected for day 0 over `storeA` is the
minute-10 reading, in the window and closest to midnight. -/
theorem C2_witness :
    meterRow 10 100 1 ∈ storeA ∧ IsMidCandidate 0 (meterRow 10 100 1) ∧
    ∀ x ∈ storeA, IsMidCandidate 0 x →
      |(meterRow 10 100 1).timestamp - midnight 0| ≤ |x.timestamp - midnight 0| :=
  (C2_anchor_minimal 0 storeA).1 (meterRow 10 100 1) midA

/-- C3: when the current reading minus the midnight anchor is negative,
`calculateDailyConsumption` returns no result and the daily-consumption
ledger is left exactly as it was — nothing is inserted, replaced or
clamped. -/
theorem C3_negative_not_persisted (d today : Int) (store : List Row)
    (ledger : List DailyRecord) (m c : Row)
    (hm : getMidnightMeterReading d store = some m)
    (hc : getLatestMeterReading store = some c)
    (hneg : c.value.getD 0 - m.value.getD 0 < 0) :
    calculateDailyConsumptionRun d today store ledger = (none, ledger) := by
  simp [calculateDailyConsumptionRun, calculateDailyConsumption, hm, hc, hneg]

/-- C3 (witness): scenario D — current 95 below anchor 100 over `storeD`,
with an arbitrary prior ledger state left untouched. -/
theorem C3_witness :
    calculateDailyConsumptionRun 0 1 storeD [] = (none, []) :=
  C3_negative_not_persisted 0 1 storeD [] (meterRow 5 100 1) (meterRow 300 95 1)
    midD latestD (by norm_num [meterRow])

/-- C4 (counterexample): with an anchor whose stored confidence is exactly
0 (and a current confidence of 1, with gaps), the computed confidence score
is 0.8 × 0.7 = 0.56, not the 0 that the claim's `min(0, 1) × 0.7` demands:
the JS `||` treats the present confidence 0 as falsy and substitutes the
0.8 default. -/
theorem C4_counterexample :
    (getMidnightMeterReading 0 storeZeroConf).map (fun r => r.confidence) =
      some (some 0) ∧
    hasGaps 0 storeZeroConf = true ∧
    (calculateDailyConsumption 0 0 storeZeroConf).map
      (fun r => r.confidenceScore) = some 0.56 ∧
    ¬ ((0.56 : ℚ) = min (0 : ℚ) 1 * 0.7) := by
  refine ⟨?_, by decide, ?_, by norm_num⟩
  · rw [midZero]; rfl
  · rw [evalZero]; rfl

/-- C4 (amended): the confidence score of a successful computation is
`min(anchor.confidence || 0.8, current.confidence || 0.8)` times 0.7 when
the day has gaps and 1 otherwise, where `||` is JS falsy coalescing: both a
missing confidence and a present confidence of exactly 0 enter the min as
the 0.8 default. -/
theorem C4_confidence_formula (d today : Int) (store : List Row) (m c : Row)
    (rec : DailyRecord)
    (hm : getMidnightMeterReading d store = some m)
    (hc : getLatestMeterReading store = some c)
    (h : calculateDailyConsumption d today store = some rec) :
    rec.confidenceScore =
      min (orDefault m.confidence) (orDefault c.confidence) *
        (if hasGaps d store then 0.7 else 1) ∧
    orDefault (some 0) = 0.8 ∧ orDefault none = 0.8 := by
  obtain ⟨m', c', hm', hc', hneg, hrec⟩ :=
    calculateDailyConsumption_inversion d today store rec h
  rw [hm] at hm'
  rw [hc] at hc'
  rw [Option.some_inj] at hm' hc'
  subst hm'
  subst hc'
  refine ⟨by rw [hrec], by norm_num [orDefault], rfl⟩

/-- C4 (witness): the amended formula evaluated over `storeZeroConf`. -/
theorem C4_witness :
    recZeroConf.confidenceScore =
      min (orDefault (meterRow 10 100 0).confidence)
        (orDefault (meterRow 100 105 1).confidence) *
        (if hasGaps 0 storeZeroConf then 0.7 else 1) ∧
    orDefault (some 0) = 0.8 ∧ orDefault none = 0.8 :=
  C4_confidence_formula 0 0 storeZeroConf (meterRow 10 100 0)
    (meterRow 100 105 1) recZeroConf midZero latestZero evalZero

/-- C5 (counterexample): stored confidences of 2 (outside [0,1]) are passed
through unclamped: the computed confidence score is min(2,2) × 0.7 = 1.4,
which is not in [0,1]. -/
theorem C5_counterexample :
    (meterRow 10 100 2).confidence = some 2 ∧ meterRow 10 100 2 ∈ storeBigConf ∧
    (calculateDailyConsumption 0 0 storeBigConf).map
      (fun r => r.confidenceScore) = some 1.4 ∧
    ¬ ((1.4 : ℚ) ≤ 1) := by
  refine ⟨rfl, by simp [storeBigConf], ?_, by norm_num⟩
  rw [evalBig]; rfl

/-- C5 (amended): the confidence score of a successful computation lies in
[0,1] provided every confidence stored in the reading table lies in [0,1];
for out-of-range inputs (negative or above 1) the bound fails, since the
code never clamps. -/
theorem C5_confidence_bounded (d today : Int) (store : List Row)
    (rec : DailyRecord)
    (h : calculateDailyConsumption d today store = some rec)
    (hconf : ∀ r ∈ store, ∀ x : ℚ, r.confidence = some x → 0 ≤ x ∧ x ≤ 1) :
    0 ≤ rec.confidenceScore ∧ rec.confidenceScore ≤ 1 := by
  obtain ⟨m, c, hm, hc, hneg, hrec⟩ :=
    calculateDailyConsumption_inversion d today store rec h
  have hmmem : m ∈ store := by
    unfold getMidnightMeterReading at hm
    exact (List.mem_filter.mp (selectBest_mem _ _ m hm)).1
  have hcmem : c ∈ store := by
    unfold getLatestMeterReading at hc
    exact (List.mem_filter.mp (selectBest_mem _ _ c hc)).1
  have bm := orDefault_bounds m.confidence (fun x hx => hconf m hmmem x hx)
  have bc := orDefault_bounds c.confidence (fun x hx => hconf c hcmem x hx)
  rw [hrec]
  simp only
  have hmin0 : 0 ≤ min (orDefault m.confidence) (orDefault c.confidence) :=
    le_min bm.1 bc.1
  have hmin1 : min (orDefault m.confidence) (orDefault c.confidence) ≤ 1 :=
    (min_le_left _ _).trans bm.2
  by_cases hg : hasGaps d store = true
  · rw [if_pos hg]
    constructor <;> nlinarith [hmin0, hmin1]
  · rw [if_neg hg]
    constructor <;> nlinarith [hmin0, hmin1]

/-- C5 (witness): the amended bound evaluated over `storeA`, whose stored
confidences are all 1. -/
theorem C5_witness : 0 ≤ recA.confidenceScore ∧ recA.confidenceScore ≤ 1 :=
  C5_confidence_bounded 0 1 storeA recA evalA confA

/-- Reduction of `trackGridStatusChange` once the prior availability lookup
is known to succeed. -/
theorem trackGridStatusChange_eq (cur prev : Row) (store : List Row)
    (hl : lastAvailability store = some prev) :
    trackGridStatusChange cur store =
      if prev.status = cur.status then none
      else if prev.status = some "online" ∧ cur.status = some "offline" then
        some (eventRow "interruption" cur)
      else if prev.status = some "offline" ∧ cur.status = some "online" then
        some (eventRow "restoration" cur)
      else none := by
  unfold trackGridStatusChange
  rw [hl]

/-- Reduction of `trackGridStatusChange` when there is no prior
availability reading. -/
theorem trackGridStatusChange_none (cur : Row) (store : List Row)
    (hl : lastAvailability store = none) :
    trackGridStatusChange cur store = none := by
  unfold trackGridStatusChange
  rw [hl]

/-- C6 (counterexample): with a prior availability reading of status
`unknown` and a current reading of status `online`, the statuses differ but
no event is emitted — refuting "an event is emitted if and only if the most
recent prior availability reading has a different status". -/
theorem C6_counterexample :
    lastAvailability [availRow 0 "unknown"] = some (availRow 0 "unknown") ∧
    (availRow 0 "unknown").status ≠ (availRow 10 "online").status ∧
    trackGridStatusChange (availRow 10 "online") [availRow 0 "unknown"] = none := by
  decide

/-- C6 (amended): an event is emitted if and only if a prior availability
reading exists and the (prior, current) status pair is one of the two
canonical transitions online→offline or offline→online; in particular no
event on a first-ever reading, none when the status is unchanged, and none
on any other status delta (e.g. involving `unknown`). -/
theorem C6_event_iff (cur : Row) (store : List Row) :
    (trackGridStatusChange cur store).isSome = true ↔
    ∃ prev, lastAvailability store = some prev ∧
      ((prev.status = some "online" ∧ cur.status = some "offline") ∨
       (prev.status = some "offline" ∧ cur.status = some "online")) := by
  cases hl : lastAvailability store with
  | none =>
    rw [trackGridStatusChange_none cur store hl]
    simp
  | some prev =>
    rw [trackGridStatusChange_eq cur prev store hl]
    constructor
    · intro h
      refine ⟨prev, rfl, ?_⟩
      by_cases h1 : prev.status = cur.status
      · rw [if_pos h1] at h; simp at h
      · rw [if_neg h1] at h
        by_cases h2 : prev.status = some "online" ∧ cur.status = some "offline"
        · exact Or.inl h2
        · rw [if_neg h2] at h
          by_cases h3 : prev.status = some "offline" ∧ cur.status = some "online"
          · exact Or.inr h3
          · rw [if_neg h3] at h; simp at h
    · rintro ⟨prev', hp, hcase⟩
      rw [Option.some_inj] at hp
      subst hp
      rcases hcase with ⟨ho, hc⟩ | ⟨ho, hc⟩
      · have h1 : ¬ prev.status = cur.status := by
          rw [ho, hc]
          intro hcon
          exact absurd (Option.some_inj.mp hcon) (by decide)
        rw [if_neg h1, if_pos ⟨ho, hc⟩]
        rfl
      · have h1 : ¬ prev.status = cur.status := by
          rw [ho, hc]
          intro hcon
          exact absurd (Option.some_inj.mp hcon) (by decide)
        have h2 : ¬ (prev.status = some "online" ∧ cur.status = some "offline") := by
          rintro ⟨ho2, hc2⟩
          rw [ho] at ho2
          exact absurd (Option.some_inj.mp ho2) (by decide)
        rw [if_neg h1, if_neg h2, if_pos ⟨ho, hc⟩]
        rfl

/-- C7: an event row is only ever emitted for the canonical transitions
online→offline (as an interruption) and offline→online (as a restoration);
and processing the sequence online, offline, offline, online from an empty
store emits exactly two events — one interruption, one restoration — with
none for the repeated offline reading. -/
theorem C7_canonical_transitions :
    (∀ (cur : Row) (store : List Row) (ev : Row),
      trackGridStatusChange cur store = some ev →
      ∃ prev, lastAvailability store = some prev ∧
        ((prev.status = some "online" ∧ cur.status = some "offline" ∧
          ev = eventRow "interruption" cur) ∨
         (prev.status = some "offline" ∧ cur.status = some "online" ∧
          ev = eventRow "restoration" cur))) ∧
    eventsOf (processAll [] [availRow 0 "online", availRow 10 "offline",
        availRow 20 "offline", availRow 30 "online"]) =
      [eventRow "interruption" (availRow 10 "offline"),
       eventRow "restoration" (availRow 30 "online")] := by
  constructor
  · intro cur store ev h
    cases hl : lastAvailability store with
    | none =>
      rw [trackGridStatusChange_none cur store hl] at h
      exact absurd h (by simp)
    | some prev =>
      rw [trackGridStatusChange_eq cur prev store hl] at h
      by_cases h1 : prev.status = cur.status
      · rw [if_pos h1] at h; exact absurd h (by simp)
      · rw [if_neg h1] at h
        by_cases h2 : prev.status = some "online" ∧ cur.status = some "offline"
        · rw [if_pos h2] at h
          exact ⟨prev, rfl, Or.inl ⟨h2.1, h2.2, (Option.some_inj.mp h).symm⟩⟩
        · rw [if_neg h2] at h
          by_cases h3 : prev.status = some "offline" ∧ cur.status = some "online"
          · rw [if_pos h3] at h
            exact ⟨prev, rfl, Or.inr ⟨h3.1, h3.2, (Option.some_inj.mp h).symm⟩⟩
          · rw [if_neg h3] at h; exact absurd h (by simp)
  · decide

/-- C7 (witness): the transition classification applied to the concrete
interruption emitted for online→offline at minute 10. -/
theorem C7_witness :
    ∃ prev, lastAvailability [availRow 0 "online"] = some prev ∧
      ((prev.status = some "online" ∧ (availRow 10 "offline").status = some "offline" ∧
        eventRow "interruption" (availRow 10 "offline") =
          eventRow "interruption" (availRow 10 "offline")) ∨
       (prev.status = some "offline" ∧ (availRow 10 "offline").status = some "online" ∧
        eventRow "interruption" (availRow 10 "offline") =
          eventRow "restoration" (availRow 10 "offline"))) :=
  C7_canonical_transitions.1 (availRow 10 "offline") [availRow 0 "online"]
    (eventRow "interruption" (availRow 10 "offline")) (by decide)

/-- C8: for every `days ≥ 1`, the backfill visits the last `days` calendar
dates in strictly increasing (oldest-first) order — exactly the dates `d`
with `today - days < d ≤ today` — runs `calculateDailyConsumption` once per
date, and returns precisely the successful results in visit order: a
failing (no-result) date is skipped without stopping the remaining dates,
as the `filterMap` form shows. -/
theorem C8_backfill_oldest_first (days : Nat) (today : Int) (store : List Row)
    (ledger : List DailyRecord) (_hdays : 1 ≤ days) :
    (backfillDailyConsumptions days today store ledger).1 =
      (backfillDates days today).filterMap
        (fun d => calculateDailyConsumption d today store) ∧
    (backfillDates days today).length = days ∧
    List.Chain' (fun a b : Int => a < b) (backfillDates days today) ∧
    ∀ d ∈ backfillDates days today, today - days < d ∧ d ≤ today :=
  ⟨backfillAux_fst today store (backfillDates days today) ledger,
   backfillDates_length days today,
   backfillDates_chain days today,
   backfillDates_mem days today⟩

/-- C8 (witness): two-day backfill over `storeA` with today = day 1. -/
theorem C8_witness :
    (backfillDailyConsumptions 2 1 storeA []).1 =
      (backfillDates 2 1).filterMap
        (fun d => calculateDailyConsumption d 1 storeA) ∧
    (backfillDates 2 1).length = 2 ∧
    List.Chain' (fun a b : Int => a < b) (backfillDates 2 1) ∧
    ∀ d ∈ backfillDates 2 1, 1 - ((2 : Nat) : Int) < d ∧ d ≤ 1 :=
  C8_backfill_oldest_first 2 1 storeA [] (by decide)

/-- C9 (counterexample): a store whose reads reject makes the `try` body of
`calculateDailyConsumption` raise, yet the function returns null (the
per-call `catch` absorbs it) instead of propagating the error to its
caller. -/
theorem C9_counterexample :
    calcBody failDB 0 1 = Except.error "SQLITE_IOERR" ∧
    calcCatch failDB 0 1 = none :=
  ⟨rfl, rfl⟩

/-- C9 (amended): any storage error raised inside `calculateDailyConsumption`
is caught by its own catch handler and converted into a null (no-result)
return — it never reaches the caller, so backfill has nothing to catch
per-item; and over a non-failing store the guarded computation agrees with
the pure one. -/
theorem C9_store_errors_absorbed :
    (∀ (db : FallibleDB) (d today : Int) (e : String),
      calcBody db d today = Except.error e → calcCatch db d today = none) ∧
    (∀ (store : List Row) (d today : Int),
      calcCatch (dbOfStore store) d today = calculateDailyConsumption d today store) := by
  constructor
  · intro db d today e he
    unfold calcCatch
    rw [he]
  · intro store d today
    simp only [calcCatch, calcBody, dbOfStore, calculateDailyConsumption]
    cases hm : getMidnightMeterReading d store with
    | none => rfl
    | some m =>
      cases hc : getLatestMeterReading store with
      | none => rfl
      | some c =>
        by_cases hneg : c.value.getD 0 - m.value.getD 0 < 0
        · simp [hneg]
        · simp [hneg]

/-- C9 (witness): the absorption applied to the always-failing store. -/
theorem C9_witness : calcCatch failDB 0 1 = none :=
  C9_store_errors_absorbed.1 failDB 0 1 "SQLITE_IOERR" rfl

/-- C10: for every date other than today, `getConsumptionAtTime` returns
null for all target times and store contents: its past-date path calls the
undefined method `getMidnightReading`, the resulting TypeError is caught,
and the catch returns null, so the historical lookup is never reached. -/
theorem C10_past_dates_null (d today targetTime : Int) (store : List Row)
    (h : d ≠ today) :
    getConsumptionAtTime d today targetTime store = none := by
  have hcall : callGetMidnightReading d store =
      Except.error "TypeError: this.getMidnightReading is not a function" := by
    unfold callGetMidnightReading
    rw [if_neg (by decide)]
  unfold getConsumptionAtTime
  rw [if_neg h]
  unfold getConsumptionAtTimePast
  rw [hcall]

/-- C10 (witness): requesting day 0 when today is day 1 over `storeA`. -/
theorem C10_witness : getConsumptionAtTime 0 1 500 storeA = none :=
  C10_past_dates_null 0 1 500 storeA (by decide)
